import Mathlib

/-!
Verification development for the `uspto_odp` client library.

The definitions below are a shallow embedding of the Python source:

* `src/models/patent_transactions.py`, `src/models/foreign_priority.py`,
  `src/models/patent_assignment.py`, `src/models/patent_documents.py`
  (pure `from_dict` mappers over JSON-like trees);
* `src/controller/uspto_odp_client.py` (dataclass `USPTOError`, the
  Union-returning endpoint bodies, `download_document`), embedded in
  namespace `V1`;
* `src/src/uspto_odp/controller/uspto_odp_client.py` (exception
  `USPTOError`, `_handle_response`), embedded in namespace `V2`.

Python dictionaries read with `data.get(key)` / `data[key]` are embedded as
records of `Option`-typed fields (one field per key the code reads); `data[key]`
access on an absent key, which raises `KeyError` in Python, is embedded as a
fallible (`Option`-returning) mapper.  `datetime.date.fromisoformat` and
`datetime.datetime.fromisoformat` are embedded by executable parsers for the
subset of CPython (3.10) grammar the mapped payloads use: strict `YYYY-MM-DD`
calendar dates, and timestamps `YYYY-MM-DD` + separator + `HH[:MM[:SS]]` with
an optional `+HH:MM` / `-HH:MM` offset (fractional seconds are not modelled;
no mapped field carries them).
-/

/-- A JSON value, as decoded by `response.json()`.  JSON `null` decodes to
Python `None`; accordingly `Json.null` plays the role of Python `None`. -/
inductive Json where
  | null : Json
  | bool : Bool → Json
  | num : Int → Json
  | str : String → Json
  | arr : List Json → Json
  | obj : List (String × Json) → Json

/-- A decoded JSON object: a finite map from field names to values
(Python `dict`; keys are unique, first binding wins). -/
def JsonDict := List (String × Json)

/-- Python `data.get(k)`: the value bound to `k`, or `None` when absent. -/
def dictGet (d : JsonDict) (k : String) : Option Json :=
  (d.find? (fun p => p.1 == k)).map (fun p => p.2)

/-- Python truthiness of a JSON-decoded value (`bool(v)`). -/
def Json.truthy : Json → Bool
  | .null => false
  | .bool b => b
  | .num n => n != 0
  | .str s => s != ""
  | .arr xs => !xs.isEmpty
  | .obj fs => !fs.isEmpty

/-- Python `a or b` over values that may be `None` (embedded as `none`). -/
def pyOr (a b : Option Json) : Option Json :=
  match a with
  | some v => if v.truthy then some v else b
  | none => b

/-- Embeds `datetime.date`: a validated calendar date. -/
structure Date where
  year : Nat
  month : Nat
  day : Nat
deriving DecidableEq, Repr

/-- Numeric value of a decimal digit character. -/
def digitVal (c : Char) : Nat := c.toNat - 48

/-- The decimal digit character for `n < 10`. -/
def digitToChar (n : Nat) : Char := Char.ofNat (48 + n)

/-- Gregorian leap-year test, as in `datetime`. -/
def isLeapYear (y : Nat) : Bool := (y % 4 == 0 && y % 100 != 0) || y % 400 == 0

/-- Days in a month, as in `datetime`. -/
def daysInMonth (y m : Nat) : Nat :=
  if m == 2 then (if isLeapYear y then 29 else 28)
  else if m == 4 || m == 6 || m == 9 || m == 11 then 30
  else 31

/-- Core of `datetime.date.fromisoformat`: parse exactly `YYYY-MM-DD`
(CPython 3.10 accepts nothing else) and validate the calendar date. -/
def dateFromChars : List Char → Option Date
  | [y1, y2, y3, y4, '-', m1, m2, '-', d1, d2] =>
    if y1.isDigit && y2.isDigit && y3.isDigit && y4.isDigit &&
       m1.isDigit && m2.isDigit && d1.isDigit && d2.isDigit then
      let y := ((digitVal y1 * 10 + digitVal y2) * 10 + digitVal y3) * 10 + digitVal y4
      let m := digitVal m1 * 10 + digitVal m2
      let d := digitVal d1 * 10 + digitVal d2
      if 1 ≤ y && 1 ≤ m && m ≤ 12 && 1 ≤ d && d ≤ daysInMonth y m then
        some ⟨y, m, d⟩
      else none
    else none
  | _ => none

/-- Embeds `datetime.date.fromisoformat` (raising is embedded as `none`). -/
def date_fromisoformat (s : String) : Option Date :=
  dateFromChars s.toList

/-- Embeds `datetime.datetime` restricted to what the mapped payloads carry:
a calendar date, a time of day, and an optional fixed UTC offset in minutes
(`some 0` is UTC `+00:00`; `none` is a naive datetime). -/
structure DateTime where
  date : Date
  hour : Nat
  minute : Nat
  second : Nat
  utcoffset : Option Int
deriving DecidableEq, Repr

/-- Parse `HH`, `HH:MM` or `HH:MM:SS` with the range checks of
`datetime.time` (CPython `_parse_hh_mm_ss_ff` plus constructor checks). -/
def parseHMS : List Char → Option (Nat × Nat × Nat)
  | [h1, h2] =>
    if h1.isDigit && h2.isDigit then
      let h := digitVal h1 * 10 + digitVal h2
      if h ≤ 23 then some (h, 0, 0) else none
    else none
  | [h1, h2, ':', m1, m2] =>
    if h1.isDigit && h2.isDigit && m1.isDigit && m2.isDigit then
      let h := digitVal h1 * 10 + digitVal h2
      let m := digitVal m1 * 10 + digitVal m2
      if h ≤ 23 && m ≤ 59 then some (h, m, 0) else none
    else none
  | [h1, h2, ':', m1, m2, ':', s1, s2] =>
    if h1.isDigit && h2.isDigit && m1.isDigit && m2.isDigit &&
       s1.isDigit && s2.isDigit then
      let h := digitVal h1 * 10 + digitVal h2
      let m := digitVal m1 * 10 + digitVal m2
      let s := digitVal s1 * 10 + digitVal s2
      if h ≤ 23 && m ≤ 59 && s ≤ 59 then some (h, m, s) else none
    else none
  | _ => none

/-- Parse a sign followed by `HH:MM` into an offset in minutes, with the
strict `|offset| < 24h` check of `datetime.timezone`. -/
def parseOffset : List Char → Option Int
  | sign :: rest =>
    match rest with
    | [h1, h2, ':', m1, m2] =>
      if (sign == '+' || sign == '-') && h1.isDigit && h2.isDigit &&
         m1.isDigit && m2.isDigit then
        let h := digitVal h1 * 10 + digitVal h2
        let m := digitVal m1 * 10 + digitVal m2
        if h * 60 + m < 24 * 60 then
          some (if sign == '-' then -(h * 60 + m : Int) else (h * 60 + m : Int))
        else none
      else none
    | _ => none
  | [] => none

/-- Embeds `datetime.datetime.fromisoformat` (CPython 3.10): the date is the
first 10 characters, one separator character is skipped, and the time string
is split at the first `-`, else the first `+`, into a time of day and a UTC
offset (raising is embedded as `none`). -/
def datetime_fromisoformat (s : String) : Option DateTime :=
  let cs := s.toList
  match dateFromChars (cs.take 10) with
  | none => none
  | some d =>
    match cs.drop 11 with
    | [] => some ⟨d, 0, 0, 0, none⟩
    | ts =>
      let tzpos :=
        match ts.findIdx? (fun c => c == '-') with
        | some i => some i
        | none => ts.findIdx? (fun c => c == '+')
      match tzpos with
      | none => (parseHMS ts).map (fun t => ⟨d, t.1, t.2.1, t.2.2, none⟩)
      | some i =>
        match parseHMS (ts.take i), parseOffset (ts.drop i) with
        | some t, some off => some ⟨d, t.1, t.2.1, t.2.2, some off⟩
        | _, _ => none

/-- Character-wise replacement; embeds Python `s.replace(c, r)` for a
single-character search string (every occurrence is replaced). -/
def replaceChars (c : Char) (r : List Char) : List Char → List Char
  | [] => []
  | x :: xs => (if x == c then r else [x]) ++ replaceChars c r xs

/-- Embeds `s.replace('Z', '+00:00')`-style calls. -/
def pyReplaceChar (s : String) (c : Char) (r : String) : String :=
  ⟨replaceChars c r.toList s.toList⟩

/-- Embeds a Python list comprehension `[f(x) for x in xs]` whose body can
raise: the whole comprehension raises (returns `none`) iff some item does. -/
def optTraverse {α β : Type} (f : α → Option β) : List α → Option (List β)
  | [] => some []
  | x :: xs =>
    match f x, optTraverse f xs with
    | some y, some ys => some (y :: ys)
    | _, _ => none

/-! ## `src/models/patent_transactions.py` -/

/-- The keys `TransactionEvent.from_dict` reads from one event tree. -/
structure TransactionEventDict where
  eventCode : Option String := none
  eventDescriptionText : Option String := none
  eventDate : Option String := none
deriving DecidableEq, Repr

/-- Embeds the dataclass `TransactionEvent`. -/
structure TransactionEvent where
  event_code : String
  event_description : String
  event_date : Date
deriving DecidableEq, Repr

/-- Embeds `TransactionEvent.from_dict`; `date.fromisoformat` can raise on a
present-but-malformed value, hence the `Option` result. -/
def TransactionEvent.from_dict (data : TransactionEventDict) : Option TransactionEvent :=
  (date_fromisoformat (data.eventDate.getD "1900-01-01")).map fun d =>
    { event_code := data.eventCode.getD ""
      event_description := data.eventDescriptionText.getD ""
      event_date := d }

/-- The keys `ApplicationTransactions.from_dict` reads. -/
structure ApplicationTransactionsDict where
  applicationNumberText : Option String := none
  eventDataBag : Option (List TransactionEventDict) := none
deriving DecidableEq, Repr

/-- Embeds the dataclass `ApplicationTransactions`. -/
structure ApplicationTransactions where
  application_number : String
  events : List TransactionEvent
deriving DecidableEq, Repr

/-- Embeds `ApplicationTransactions.from_dict`. -/
def ApplicationTransactions.from_dict (data : ApplicationTransactionsDict) :
    Option ApplicationTransactions :=
  (optTraverse TransactionEvent.from_dict (data.eventDataBag.getD [])).map fun evs =>
    { application_number := data.applicationNumberText.getD ""
      events := evs }

/-- The keys `TransactionCollection.from_dict` reads (the collection bodies
returned by the API also carry `requestIdentifier`). -/
structure TransactionCollectionDict where
  count : Option Int := none
  patentFileWrapperDataBag : Option (List ApplicationTransactionsDict) := none
  requestIdentifier : Option String := none
deriving DecidableEq, Repr

/-- Embeds the dataclass `TransactionCollection`. -/
structure TransactionCollection where
  count : Int
  transactions : List ApplicationTransactions
  request_identifier : Option String
deriving DecidableEq, Repr

/-- Embeds `TransactionCollection.from_dict`. -/
def TransactionCollection.from_dict (data : TransactionCollectionDict) :
    Option TransactionCollection :=
  (optTraverse ApplicationTransactions.from_dict
      (data.patentFileWrapperDataBag.getD [])).map fun txs =>
    { count := data.count.getD 0
      transactions := txs
      request_identifier := data.requestIdentifier }

/-! ## `src/models/foreign_priority.py` -/

/-- The keys `ForeignPriority.from_dict` reads. -/
structure ForeignPriorityDict where
  ipOfficeName : Option String := none
  filingDate : Option String := none
  applicationNumberText : Option String := none
deriving DecidableEq, Repr

/-- Embeds the dataclass `ForeignPriority`. -/
structure ForeignPriority where
  office_name : String
  filing_date : Date
  application_number : String
deriving DecidableEq, Repr

/-- Embeds `ForeignPriority.from_dict`. -/
def ForeignPriority.from_dict (data : ForeignPriorityDict) : Option ForeignPriority :=
  (date_fromisoformat (data.filingDate.getD "1900-01-01")).map fun d =>
    { office_name := data.ipOfficeName.getD ""
      filing_date := d
      application_number := data.applicationNumberText.getD "" }

/-- The keys `ForeignPriorityData.from_dict` reads. -/
structure ForeignPriorityDataDict where
  applicationNumberText : Option String := none
  foreignPriorityBag : Option (List ForeignPriorityDict) := none
deriving DecidableEq, Repr

/-- Embeds the dataclass `ForeignPriorityData`. -/
structure ForeignPriorityData where
  application_number : String
  foreign_priorities : List ForeignPriority
deriving DecidableEq, Repr

/-- Embeds `ForeignPriorityData.from_dict`. -/
def ForeignPriorityData.from_dict (data : ForeignPriorityDataDict) :
    Option ForeignPriorityData :=
  (optTraverse ForeignPriority.from_dict (data.foreignPriorityBag.getD [])).map fun fps =>
    { application_number := data.applicationNumberText.getD ""
      foreign_priorities := fps }

/-- The keys of a foreign-priority collection body (the body returned by the
API also carries `requestIdentifier`; `from_dict` does not read it). -/
structure ForeignPriorityCollectionDict where
  count : Option Int := none
  patentFileWrapperDataBag : Option (List ForeignPriorityDataDict) := none
  requestIdentifier : Option String := none
deriving DecidableEq, Repr

/-- Embeds the dataclass `ForeignPriorityCollection`: in the source it has no
`request_identifier` field. -/
structure ForeignPriorityCollection where
  count : Int
  priorities : List ForeignPriorityData
deriving DecidableEq, Repr

/-- Embeds `ForeignPriorityCollection.from_dict`. -/
def ForeignPriorityCollection.from_dict (data : ForeignPriorityCollectionDict) :
    Option ForeignPriorityCollection :=
  (optTraverse ForeignPriorityData.from_dict
      (data.patentFileWrapperDataBag.getD [])).map fun ps =>
    { count := data.count.getD 0
      priorities := ps }

/-! ## `src/models/patent_assignment.py` -/

/-- The keys `Address.from_dict` reads. -/
structure AddressDict where
  addressLineOneText : Option String := none
  addressLineTwoText : Option String := none
  addressLineThreeText : Option String := none
  cityName : Option String := none
  geographicRegionCode : Option String := none
  postalCode : Option String := none
deriving DecidableEq, Repr

/-- Embeds the dataclass `Address`. -/
structure Address where
  line1 : String
  city : String
  geographic_region : String
  line2 : Option String := none
  line3 : Option String := none
  postal_code : Option String := none
deriving DecidableEq, Repr

/-- Embeds `Address.from_dict` (all keys optional; the mapper is total). -/
def Address.from_dict (data : AddressDict) : Address :=
  { line1 := data.addressLineOneText.getD ""
    line2 := data.addressLineTwoText
    line3 := data.addressLineThreeText
    city := data.cityName.getD ""
    geographic_region := data.geographicRegionCode.getD ""
    postal_code := data.postalCode }

/-- The keys `Assignor.from_dict` reads. -/
structure AssignorDict where
  assignorName : Option String := none
  executionDate : Option String := none
deriving DecidableEq, Repr

/-- Embeds the dataclass `Assignor`. -/
structure Assignor where
  name : String
  execution_date : Date
deriving DecidableEq, Repr

/-- Embeds `Assignor.from_dict`. -/
def Assignor.from_dict (data : AssignorDict) : Option Assignor :=
  (date_fromisoformat (data.executionDate.getD "1900-01-01")).map fun d =>
    { name := data.assignorName.getD "", execution_date := d }

/-- The keys `Assignee.from_dict` reads. -/
structure AssigneeDict where
  assigneeNameText : Option String := none
  assigneeAddress : Option AddressDict := none
deriving DecidableEq, Repr

/-- Embeds the dataclass `Assignee`. -/
structure Assignee where
  name : String
  address : Address
deriving DecidableEq, Repr

/-- Embeds `Assignee.from_dict` (`data.get('assigneeAddress', {})`). -/
def Assignee.from_dict (data : AssigneeDict) : Assignee :=
  { name := data.assigneeNameText.getD ""
    address := Address.from_dict (data.assigneeAddress.getD {}) }

/-- The keys `Correspondent.from_dict` reads. -/
structure CorrespondentDict where
  correspondentNameText : Option String := none
  addressLineOneText : Option String := none
  addressLineTwoText : Option String := none
  addressLineThreeText : Option String := none
deriving DecidableEq, Repr

/-- Embeds the dataclass `Correspondent`. -/
structure Correspondent where
  name : String
  address : Address
deriving DecidableEq, Repr

/-- Python `s.split(c)[0]`: the portion of `s` before the first occurrence of
`c` (all of `s` when `c` does not occur). -/
def pySplitFirst (s : String) (c : Char) : String :=
  ⟨s.toList.takeWhile (fun x => x != c)⟩

/-- Embeds `Correspondent.from_dict`: it synthesizes an `AddressDict` whose
`cityName` is `addressLineThreeText` split at the first comma when that value
is truthy (a non-empty string), and whose `geographicRegionCode` is the empty
string; the synthesized dict has no `postalCode` key. -/
def Correspondent.from_dict (data : CorrespondentDict) : Correspondent :=
  let address_data : AddressDict :=
    { addressLineOneText := some (data.addressLineOneText.getD "")
      addressLineTwoText := data.addressLineTwoText
      addressLineThreeText := data.addressLineThreeText
      cityName := some (match data.addressLineThreeText with
        | some s => if s != "" then pySplitFirst s ',' else ""
        | none => "")
      geographicRegionCode := some ""
      postalCode := none }
  { name := data.correspondentNameText.getD ""
    address := Address.from_dict address_data }

/-- The keys `Assignment.from_dict` reads.  `reelNumber_frameNumber` stands
for the literal JSON key `reelNumber/frameNumber`.  The integer fields are
read through `int(...)`, embedded here as integer-typed values. -/
structure AssignmentDict where
  assignmentReceivedDate : Option String := none
  assignmentRecordedDate : Option String := none
  assignmentMailedDate : Option String := none
  reelNumber : Option Int := none
  frameNumber : Option Int := none
  pageNumber : Option Int := none
  reelNumber_frameNumber : Option String := none
  conveyanceText : Option String := none
  assignorBag : Option (List AssignorDict) := none
  assigneeBag : Option (List AssigneeDict) := none
  correspondenceAddressBag : Option (List CorrespondentDict) := none
deriving DecidableEq, Repr

/-- Embeds the dataclass `Assignment`. -/
structure Assignment where
  received_date : Date
  recorded_date : Date
  mailed_date : Date
  reel_number : Int
  frame_number : Int
  page_number : Int
  reel_frame : String
  conveyance_text : String
  assignors : List Assignor
  assignees : List Assignee
  correspondents : List Correspondent
deriving DecidableEq, Repr

/-- Embeds `Assignment.from_dict`. -/
def Assignment.from_dict (data : AssignmentDict) : Option Assignment :=
  match date_fromisoformat (data.assignmentReceivedDate.getD "1900-01-01"),
        date_fromisoformat (data.assignmentRecordedDate.getD "1900-01-01"),
        date_fromisoformat (data.assignmentMailedDate.getD "1900-01-01"),
        optTraverse Assignor.from_dict (data.assignorBag.getD []) with
  | some rcv, some rec, some ml, some asr =>
    some { received_date := rcv
           recorded_date := rec
           mailed_date := ml
           reel_number := data.reelNumber.getD 0
           frame_number := data.frameNumber.getD 0
           page_number := data.pageNumber.getD 0
           reel_frame := data.reelNumber_frameNumber.getD ""
           conveyance_text := data.conveyanceText.getD ""
           assignors := asr
           assignees := (data.assigneeBag.getD []).map Assignee.from_dict
           correspondents :=
             (data.correspondenceAddressBag.getD []).map Correspondent.from_dict }
  | _, _, _, _ => none

/-- The keys `ApplicationAssignment.from_dict` reads. -/
structure ApplicationAssignmentDict where
  applicationNumberText : Option String := none
  assignmentBag : Option (List AssignmentDict) := none
deriving DecidableEq, Repr

/-- Embeds the dataclass `ApplicationAssignment`. -/
structure ApplicationAssignment where
  application_number : String
  assignments : List Assignment
deriving DecidableEq, Repr

/-- Embeds `ApplicationAssignment.from_dict`. -/
def ApplicationAssignment.from_dict (data : ApplicationAssignmentDict) :
    Option ApplicationAssignment :=
  (optTraverse Assignment.from_dict (data.assignmentBag.getD [])).map fun asgs =>
    { application_number := data.applicationNumberText.getD ""
      assignments := asgs }

/-- The keys `AssignmentCollection.from_dict` reads. -/
structure AssignmentCollectionDict where
  count : Option Int := none
  patentFileWrapperDataBag : Option (List ApplicationAssignmentDict) := none
  requestIdentifier : Option String := none
deriving DecidableEq, Repr

/-- Embeds the dataclass `AssignmentCollection`. -/
structure AssignmentCollection where
  count : Int
  assignments : List ApplicationAssignment
  request_identifier : Option String
deriving DecidableEq, Repr

/-- Embeds `AssignmentCollection.from_dict`. -/
def AssignmentCollection.from_dict (data : AssignmentCollectionDict) :
    Option AssignmentCollection :=
  (optTraverse ApplicationAssignment.from_dict
      (data.patentFileWrapperDataBag.getD [])).map fun asgs =>
    { count := data.count.getD 0
      assignments := asgs
      request_identifier := data.requestIdentifier }

/-! ## `src/models/patent_documents.py` -/

/-- The keys `DownloadOption.from_dict` reads; `mimeTypeIdentifier` and
`downloadUrl` are read with `data[...]` (required). -/
structure DownloadOptionDict where
  mimeTypeIdentifier : Option String := none
  downloadUrl : Option String := none
  pageTotalQuantity : Option Int := none
deriving DecidableEq, Repr

/-- Embeds the dataclass `DownloadOption`. -/
structure DownloadOption where
  mime_type : String
  download_url : String
  page_count : Option Int := none
deriving DecidableEq, Repr

/-- Embeds `DownloadOption.from_dict`: the two `data[...]` accesses raise
`KeyError` (here: `none`) when the key is absent. -/
def DownloadOption.from_dict (data : DownloadOptionDict) : Option DownloadOption :=
  match data.mimeTypeIdentifier, data.downloadUrl with
  | some mt, some url =>
    some { mime_type := mt, download_url := url, page_count := data.pageTotalQuantity }
  | _, _ => none

/-- The keys `PatentDocument.from_dict` reads; every scalar key is read with
`data[...]` (required); only `downloadOptionBag` is read with `data.get`. -/
structure PatentDocumentDict where
  applicationNumberText : Option String := none
  officialDate : Option String := none
  documentIdentifier : Option String := none
  documentCode : Option String := none
  documentCodeDescriptionText : Option String := none
  directionCategory : Option String := none
  downloadOptionBag : Option (List DownloadOptionDict) := none
deriving DecidableEq, Repr

/-- Embeds the dataclass `PatentDocument`. -/
structure PatentDocument where
  application_number : String
  official_date : DateTime
  document_identifier : String
  document_code : String
  document_description : String
  direction_category : String
  download_options : List DownloadOption
deriving DecidableEq, Repr

/-- Embeds `PatentDocument.from_dict`: the six scalar `data[...]` accesses
raise on absence, and `officialDate` is parsed by
`datetime.fromisoformat(value.replace('Z', '+00:00'))`. -/
def PatentDocument.from_dict (data : PatentDocumentDict) : Option PatentDocument :=
  match data.applicationNumberText, data.officialDate, data.documentIdentifier,
        data.documentCode, data.documentCodeDescriptionText,
        data.directionCategory with
  | some an, some od, some di, some dc, some dd, some dcat =>
    match datetime_fromisoformat (pyReplaceChar od 'Z' "+00:00"),
          optTraverse DownloadOption.from_dict (data.downloadOptionBag.getD []) with
    | some ts, some opts =>
      some { application_number := an
             official_date := ts
             document_identifier := di
             document_code := dc
             document_description := dd
             direction_category := dcat
             download_options := opts }
    | _, _ => none
  | _, _, _, _, _, _ => none

/-- The keys of a document-collection body (the API body also carries `count`
and `requestIdentifier`; `from_dict` reads only `documentBag`). -/
structure PatentDocumentCollectionDict where
  count : Option Int := none
  documentBag : Option (List PatentDocumentDict) := none
  requestIdentifier : Option String := none
deriving DecidableEq, Repr

/-- Embeds the dataclass `PatentDocumentCollection`: in the source it has
only the `documents` field (no count, no request identifier). -/
structure PatentDocumentCollection where
  documents : List PatentDocument
deriving DecidableEq, Repr

/-- Embeds `PatentDocumentCollection.from_dict`. -/
def PatentDocumentCollection.from_dict (data : PatentDocumentCollectionDict) :
    Option PatentDocumentCollection :=
  (optTraverse PatentDocument.from_dict (data.documentBag.getD [])).map fun docs =>
    { documents := docs }

/-! ## `src/controller/uspto_odp_client.py` (namespace `V1`):
the dataclass `USPTOError` and the Union-returning endpoint methods. -/

namespace V1

/-- Embeds the dataclass `USPTOError`.  The Python field annotations are
`int`/`str`, but `data.get` hands back whatever JSON value (or the typed
default) is bound, so the populated fields hold JSON values. -/
structure USPTOError where
  code : Json
  error : Json
  error_details : Option Json := none
  request_identifier : Option Json := none

/-- The per-status default message table of `USPTOError.from_dict`. -/
def default_messages (status_code : Nat) : Option String :=
  if status_code == 400 then some "Bad Request"
  else if status_code == 403 then some "Forbidden"
  else if status_code == 404 then some "Not Found"
  else if status_code == 500 then some "Internal Server Error"
  else none

/-- Embeds `USPTOError.from_dict` of `src/controller/uspto_odp_client.py`.
`data.get('errorDetails') or data.get('errorDetailed')` is Python `or`,
embedded by `pyOr`. -/
def USPTOError.from_dict (data : JsonDict) (status_code : Nat) : USPTOError :=
  { code := (dictGet data "code").getD (.num status_code)
    error := (dictGet data "error").getD
      (.str ((default_messages status_code).getD "Unknown Error"))
    error_details := pyOr (dictGet data "errorDetails") (dictGet data "errorDetailed")
    request_identifier := dictGet data "requestIdentifier" }

/-- Embeds the response handling shared by every Union-returning endpoint
method: `response.json()` failing to parse (`body = none`) is treated as the
empty mapping; status 200 returns the parsed result, anything else returns a
`USPTOError`. -/
def endpoint_result {α : Type} (status : Nat) (body : Option JsonDict)
    (parse_func : JsonDict → α) : α ⊕ USPTOError :=
  let data := body.getD []
  if status == 200 then .inl (parse_func data)
  else .inr (USPTOError.from_dict data status)

end V1

/-! ## `src/src/uspto_odp/controller/uspto_odp_client.py` (namespace `V2`):
the exception `USPTOError` and `USPTOClient._handle_response`. -/

namespace V2

/-- Embeds the exception class `USPTOError` (its four attributes; the message
string built by `super().__init__` is presentation only and not modelled). -/
structure USPTOError where
  code : Json
  error : Json
  error_details : Option Json := none
  request_identifier : Option Json := none

/-- The per-status default message table of `USPTOError.from_dict`. -/
def default_messages (status_code : Nat) : Option String :=
  if status_code == 400 then some "Bad Request"
  else if status_code == 403 then some "Forbidden"
  else if status_code == 404 then some "Not Found"
  else if status_code == 500 then some "Internal Server Error"
  else none

/-- Embeds `USPTOError.from_dict` of
`src/src/uspto_odp/controller/uspto_odp_client.py`. -/
def USPTOError.from_dict (data : JsonDict) (status_code : Nat) : USPTOError :=
  { code := (dictGet data "code").getD (.num status_code)
    error := (dictGet data "error").getD
      (.str ((default_messages status_code).getD "Unknown Error"))
    error_details := pyOr (dictGet data "errorDetails") (dictGet data "errorDetailed")
    request_identifier := dictGet data "requestIdentifier" }

/-- Embeds `USPTOClient._handle_response`: `response.json()` failing to parse
(`body = none`) is caught and replaced by the empty mapping; status 200 hands
the data to `parse_func`, anything else raises a `USPTOError` (embedded as
`Except.error`). -/
def handle_response {α : Type} (status : Nat) (body : Option JsonDict)
    (parse_func : JsonDict → α) : Except USPTOError α :=
  let data := body.getD []
  if status == 200 then .ok (parse_func data)
  else .error (USPTOError.from_dict data status)

end V2

/-! ## `USPTOClient.download_document`
(defined identically in both client files). -/

/-- The local-filesystem state `download_document` consults before any
network activity. -/
structure FileSystem where
  pathExists : String → Bool
  pathWritable : String → Bool

/-- The distinguishable failure conditions of `download_document` that occur
before any network request is issued. -/
inductive DownloadErr where
  | fileNotFound : String → DownloadErr
  | permissionErr : String → DownloadErr
  | valueErr : String → DownloadErr
deriving DecidableEq, Repr

/-- The network request `download_document` issues once every local check has
passed, together with the destination path it will write. -/
structure DownloadRequest where
  url : String
  full_path : String
deriving DecidableEq, Repr

/-- Embeds `os.path.join(a, b)` for the POSIX flavour the code relies on. -/
def pyPathJoin (a b : String) : String :=
  if b.startsWith "/" then b
  else if a == "" || a.endsWith "/" then a ++ b
  else a ++ "/" ++ b

/-- Embeds `USPTOClient.download_document` up to the point where the network
request is issued: the save-path existence and writability checks, the
download-option lookup by mime type, and the filename synthesis all happen
before the request, so a `DownloadErr` result means no network call was made.
The actual streaming of the response body is outside this model.  Note that
Python `if not filename` treats the empty string like an absent filename. -/
def download_document (fs : FileSystem) (document : PatentDocument)
    (save_path : String) (filename : Option String) (mime_type : String) :
    Except DownloadErr DownloadRequest :=
  if !(fs.pathExists save_path) then
    .error (.fileNotFound ("Save path does not exist: " ++ save_path))
  else if !(fs.pathWritable save_path) then
    .error (.permissionErr ("Save path is not writable: " ++ save_path))
  else
    match document.download_options.find? (fun opt => opt.mime_type == mime_type) with
    | none =>
      .error (.valueErr ("Mime type \x27" ++ mime_type ++
        "\x27 not available for this document. Available types: " ++
        String.intercalate ", " (document.download_options.map (fun opt => opt.mime_type))))
    | some download_option =>
      let fname :=
        if filename.getD "" == "" then
          document.application_number ++ "_" ++ document.document_code ++ "_" ++
            document.document_identifier ++
            (if mime_type == "PDF" then ".pdf"
             else if mime_type == "MS_WORD" then ".doc" else ".xml")
        else filename.getD ""
      .ok { url := download_option.download_url
            full_path := pyPathJoin save_path fname }

/-! ## Patent-number lookup (spec-modelled) -/

/-- Modelled from the spec: the client method
`get_app_number_from_patent_number` (and its metadata variant) is missing
from the sources under `src/` — only its test
(`src/tests/test_uspto_odp_client.py`) is present.  Per the spec, the patent
number is sanitized by stripping a leading `US` marker and the comma
thousands separators, leaving only the digits. -/
def sanitize_patent_number (s : String) : String :=
  let cs := match s.toList with
    | 'U' :: 'S' :: rest => rest
    | cs => cs
  ⟨cs.filter (fun c => c != ',')⟩

/-- Modelled from the spec: the POST filter payload
`{"filters": {"applicationMetaData.patentNumber": <sanitized digits>}}`
built by the missing lookup method. -/
def patent_number_payload (s : String) : JsonDict :=
  [("filters", Json.obj
    [("applicationMetaData.patentNumber", Json.str (sanitize_patent_number s))])]

/-! ## Well-formed input shapes

The following renderers formalize the input classes named by the spec: a
date-field string "of the form `YYYY-MM-DD`" and a timestamp string of the
form `YYYY-MM-DDTHH:MM:SS` (optionally carrying a trailing `Z`). -/

/-- Two-digit zero-padded decimal rendering (for `n < 100`). -/
def pad2 (n : Nat) : List Char := [digitToChar (n / 10), digitToChar (n % 10)]

/-- Four-digit zero-padded decimal rendering (for `n < 10000`). -/
def pad4 (n : Nat) : List Char :=
  [digitToChar (n / 1000), digitToChar (n / 100 % 10),
   digitToChar (n / 10 % 10), digitToChar (n % 10)]

/-- The characters of the `YYYY-MM-DD` rendering of a date. -/
def renderDateChars (d : Date) : List Char :=
  pad4 d.year ++ '-' :: pad2 d.month ++ '-' :: pad2 d.day

/-- The `YYYY-MM-DD` rendering of a date. -/
def renderDate (d : Date) : String := ⟨renderDateChars d⟩

/-- The characters of the `YYYY-MM-DDTHH:MM:SS` rendering of a timestamp. -/
def renderTimestampChars (d : Date) (hh mi ss : Nat) : List Char :=
  renderDateChars d ++ 'T' :: (pad2 hh ++ ':' :: pad2 mi ++ ':' :: pad2 ss)

/-- The `YYYY-MM-DDTHH:MM:SS` rendering of a timestamp. -/
def renderTimestamp (d : Date) (hh mi ss : Nat) : String :=
  ⟨renderTimestampChars d hh mi ss⟩

/-! ## Helper lemmas -/

theorem toNat_digitToChar {n : Nat} (h : n < 10) : (digitToChar n).toNat = 48 + n := by
  interval_cases n <;> rfl

theorem isDigit_digitToChar {n : Nat} (h : n < 10) : (digitToChar n).isDigit = true := by
  interval_cases n <;> rfl

theorem digitVal_digitToChar {n : Nat} (h : n < 10) : digitVal (digitToChar n) = n := by
  interval_cases n <;> rfl

theorem digitToChar_beq_eq_false {n : Nat} (hn : n < 10) {c : Char}
    (hc : c.toNat < 48 ∨ 57 < c.toNat) : (digitToChar n == c) = false := by
  rw [beq_eq_false_iff_ne]
  intro he
  have h48 := toNat_digitToChar hn
  rw [he] at h48
  omega

theorem digitToChar_ne {n : Nat} (hn : n < 10) {c : Char}
    (hc : c.toNat < 48 ∨ 57 < c.toNat) : digitToChar n ≠ c := by
  have := digitToChar_beq_eq_false hn hc
  rwa [beq_eq_false_iff_ne] at this

theorem optTraverse_length {α β : Type} (f : α → Option β) :
    ∀ {xs : List α} {ys : List β}, optTraverse f xs = some ys → ys.length = xs.length := by
  intro xs
  induction xs with
  | nil =>
    intro ys h
    simp only [optTraverse, Option.some.injEq] at h
    subst h
    rfl
  | cons x xs ih =>
    intro ys h
    simp only [optTraverse] at h
    cases hf : f x with
    | none => rw [hf] at h; exact absurd h (by simp)
    | some y =>
      rw [hf] at h
      cases ht : optTraverse f xs with
      | none => rw [ht] at h; exact absurd h (by simp)
      | some ys2 =>
        rw [ht] at h
        simp only [Option.some.injEq] at h
        subst h
        simp [ih ht]

/-! ## Claims -/

/-- C7: the two parallel client implementations classify errors identically —
for every body dict and every HTTP status code, `USPTOError.from_dict` of the
Union-returning client (`V1`) and `USPTOError.from_dict` of the
exception-raising client (`V2`) produce the same four field values
(code, error, error_details, request_identifier). -/
theorem c7_duplicate_clients_agree (data : JsonDict) (status_code : Nat) :
    (V1.USPTOError.from_dict data status_code).code =
      (V2.USPTOError.from_dict data status_code).code ∧
    (V1.USPTOError.from_dict data status_code).error =
      (V2.USPTOError.from_dict data status_code).error ∧
    (V1.USPTOError.from_dict data status_code).error_details =
      (V2.USPTOError.from_dict data status_code).error_details ∧
    (V1.USPTOError.from_dict data status_code).request_identifier =
      (V2.USPTOError.from_dict data status_code).request_identifier :=
  ⟨rfl, rfl, rfl, rfl⟩

/-- C9: the patent-number lookup normalizes `"US11,989,999"`, `"11,989,999"`
and `"11989999"` all to the digit string `"11989999"`, and the POST payload
it builds is `{"filters": {"applicationMetaData.patentNumber": <digits>}}`
(sanitization modelled from the spec; the method is absent from `src/`). -/
theorem c9_patent_number_sanitization :
    sanitize_patent_number "US11,989,999" = "11989999" ∧
    sanitize_patent_number "11,989,999" = "11989999" ∧
    sanitize_patent_number "11989999" = "11989999" ∧
    patent_number_payload "US11,989,999" =
      [("filters", Json.obj
        [("applicationMetaData.patentNumber", Json.str "11989999")])] ∧
    patent_number_payload "11,989,999" =
      [("filters", Json.obj
        [("applicationMetaData.patentNumber", Json.str "11989999")])] ∧
    patent_number_payload "11989999" =
      [("filters", Json.obj
        [("applicationMetaData.patentNumber", Json.str "11989999")])] :=
  ⟨rfl, rfl, rfl, rfl, rfl, rfl⟩

/-- C10: each count-carrying collection constructor copies the body
`count` verbatim (0 when absent), independent of how many item trees the bag
holds; in particular a body with `count = 5` and an empty bag yields a record
with count 5 and zero items. -/
theorem c10_count_not_reconciled :
    (∀ (d : TransactionCollectionDict) (c : TransactionCollection),
      TransactionCollection.from_dict d = some c → c.count = d.count.getD 0) ∧
    (∀ (d : ForeignPriorityCollectionDict) (c : ForeignPriorityCollection),
      ForeignPriorityCollection.from_dict d = some c → c.count = d.count.getD 0) ∧
    (∀ (d : AssignmentCollectionDict) (c : AssignmentCollection),
      AssignmentCollection.from_dict d = some c → c.count = d.count.getD 0) ∧
    TransactionCollection.from_dict
      { count := some 5, patentFileWrapperDataBag := some [], requestIdentifier := none } =
      some { count := 5, transactions := [], request_identifier := none } ∧
    ForeignPriorityCollection.from_dict
      { count := some 5, patentFileWrapperDataBag := some [], requestIdentifier := none } =
      some { count := 5, priorities := [] } ∧
    AssignmentCollection.from_dict
      { count := some 5, patentFileWrapperDataBag := some [], requestIdentifier := none } =
      some { count := 5, assignments := [], request_identifier := none } := by
  refine ⟨?_, ?_, ?_, rfl, rfl, rfl⟩ <;>
    · intro d c h
      simp only [TransactionCollection.from_dict, ForeignPriorityCollection.from_dict,
        AssignmentCollection.from_dict] at h
      cases ht : optTraverse _ (d.patentFileWrapperDataBag.getD []) with
      | none =>
        rw [ht] at h
        exact absurd h (by simp)
      | some ys =>
        rw [ht] at h
        simp only [Option.map_some', Option.some.injEq] at h
        subst h
        rfl

/-- C10 witness: the general clause applied to the concrete body with
`count = 5` and an empty bag. -/
theorem c10_count_not_reconciled_witness :
    ({ count := 5, transactions := [], request_identifier := none } :
      TransactionCollection).count = (some (5 : Int)).getD 0 :=
  c10_count_not_reconciled.1
    { count := some 5, patentFileWrapperDataBag := some [], requestIdentifier := none }
    { count := 5, transactions := [], request_identifier := none } rfl

/-- C4 counterexample: the claim says every collection record carries an
optional request-correlation identifier populated from the body key
`requestIdentifier`, for all collection types.  It is false: the
foreign-priority and document collections drop that key — two bodies that
differ only in `requestIdentifier` (one carrying `"abc-123"`, one carrying
nothing) map to the very same records, so no field of the result is populated
from it (indeed `ForeignPriorityCollection` and `PatentDocumentCollection`
have no such field in the source). -/
theorem c4_counterexample :
    ForeignPriorityCollection.from_dict
      { count := some 1, patentFileWrapperDataBag := some [],
        requestIdentifier := some "abc-123" } =
      ForeignPriorityCollection.from_dict
        { count := some 1, patentFileWrapperDataBag := some [],
          requestIdentifier := none } ∧
    PatentDocumentCollection.from_dict
      { count := some 1, documentBag := some [],
        requestIdentifier := some "abc-123" } =
      PatentDocumentCollection.from_dict
        { count := none, documentBag := some [], requestIdentifier := none } :=
  ⟨rfl, rfl⟩

/-- C4 (amended): only `TransactionCollection` and `AssignmentCollection`
have the full uniform shape (count defaulting to 0, ordered record sequence,
request identifier populated from the body key `requestIdentifier`);
`ForeignPriorityCollection` carries count and records but ignores the
request identifier; `PatentDocumentCollection` carries only the record
sequence, ignoring both count and request identifier. -/
theorem c4_amended_collection_shape :
    (∀ (d : TransactionCollectionDict) (c : TransactionCollection),
      TransactionCollection.from_dict d = some c →
        (d.count = none → c.count = 0) ∧
        (∀ n, d.count = some n → c.count = n) ∧
        c.request_identifier = d.requestIdentifier) ∧
    (∀ (d : AssignmentCollectionDict) (c : AssignmentCollection),
      AssignmentCollection.from_dict d = some c →
        (d.count = none → c.count = 0) ∧
        (∀ n, d.count = some n → c.count = n) ∧
        c.request_identifier = d.requestIdentifier) ∧
    (∀ (d : ForeignPriorityCollectionDict) (c : ForeignPriorityCollection),
      ForeignPriorityCollection.from_dict d = some c →
        (d.count = none → c.count = 0) ∧ (∀ n, d.count = some n → c.count = n)) ∧
    (∀ (d : ForeignPriorityCollectionDict) (rid : Option String),
      ForeignPriorityCollection.from_dict { d with requestIdentifier := rid } =
        ForeignPriorityCollection.from_dict d) ∧
    (∀ (d : PatentDocumentCollectionDict) (cnt : Option Int) (rid : Option String),
      PatentDocumentCollection.from_dict { d with count := cnt, requestIdentifier := rid } =
        PatentDocumentCollection.from_dict d) := by
  refine ⟨?_, ?_, ?_, fun d rid => rfl, fun d cnt rid => rfl⟩ <;>
    · intro d c h
      simp only [TransactionCollection.from_dict, AssignmentCollection.from_dict,
        ForeignPriorityCollection.from_dict] at h
      cases ht : optTraverse _ (d.patentFileWrapperDataBag.getD []) with
      | none =>
        rw [ht] at h
        exact absurd h (by simp)
      | some ys =>
        rw [ht] at h
        simp only [Option.map_some', Option.some.injEq] at h
        subst h
        first
        | exact ⟨fun hc => by rw [hc]; rfl, fun n hc => by rw [hc]; rfl, rfl⟩
        | exact ⟨fun hc => by rw [hc]; rfl, fun n hc => by rw [hc]; rfl⟩

/-- C4 witness: the transaction-collection clause applied to a concrete body
carrying `count = 2` and `requestIdentifier = "xyz"`. -/
theorem c4_amended_collection_shape_witness :
    (∀ n, (some (2 : Int)) = some n →
      ({ count := 2, transactions := [], request_identifier := some "xyz" } :
        TransactionCollection).count = n) ∧
    ({ count := 2, transactions := [], request_identifier := some "xyz" } :
      TransactionCollection).request_identifier = some "xyz" := by
  have h := c4_amended_collection_shape.1
    { count := some 2, patentFileWrapperDataBag := some [], requestIdentifier := some "xyz" }
    { count := 2, transactions := [], request_identifier := some "xyz" } rfl
  exact ⟨h.2.1, h.2.2⟩

/-- C3: mapping a well-formed collection body whose `count` is `N` and whose
per-item bag holds `N` item trees yields a record whose item sequence has
length `N` — each bag element maps to exactly one record, none skipped, none
added — for all four collection mappers. -/
theorem c3_collection_length_roundtrip :
    (∀ (N : Nat) (d : TransactionCollectionDict) (c : TransactionCollection),
      d.count = some (N : Int) → (d.patentFileWrapperDataBag.getD []).length = N →
      TransactionCollection.from_dict d = some c → c.transactions.length = N) ∧
    (∀ (N : Nat) (d : ForeignPriorityCollectionDict) (c : ForeignPriorityCollection),
      d.count = some (N : Int) → (d.patentFileWrapperDataBag.getD []).length = N →
      ForeignPriorityCollection.from_dict d = some c → c.priorities.length = N) ∧
    (∀ (N : Nat) (d : AssignmentCollectionDict) (c : AssignmentCollection),
      d.count = some (N : Int) → (d.patentFileWrapperDataBag.getD []).length = N →
      AssignmentCollection.from_dict d = some c → c.assignments.length = N) ∧
    (∀ (N : Nat) (d : PatentDocumentCollectionDict) (c : PatentDocumentCollection),
      d.count = some (N : Int) → (d.documentBag.getD []).length = N →
      PatentDocumentCollection.from_dict d = some c → c.documents.length = N) := by
  refine ⟨?_, ?_, ?_, ?_⟩ <;>
    · intro N d c _ hlen h
      simp only [TransactionCollection.from_dict, ForeignPriorityCollection.from_dict,
        AssignmentCollection.from_dict, PatentDocumentCollection.from_dict] at h
      first
      | cases ht : optTraverse _ (d.patentFileWrapperDataBag.getD []) with
        | none =>
          rw [ht] at h
          exact absurd h (by simp)
        | some ys =>
          rw [ht] at h
          simp only [Option.map_some', Option.some.injEq] at h
          subst h
          simpa [optTraverse_length _ ht] using hlen
      | cases ht : optTraverse _ (d.documentBag.getD []) with
        | none =>
          rw [ht] at h
          exact absurd h (by simp)
        | some ys =>
          rw [ht] at h
          simp only [Option.map_some', Option.some.injEq] at h
          subst h
          simpa [optTraverse_length _ ht] using hlen

/-- C3 witness: a transaction body with `count = 1` and one item tree maps to
a record with exactly one transaction record. -/
theorem c3_collection_length_roundtrip_witness :
    ({ count := 1, transactions := [{ application_number := "", events := [] }],
       request_identifier := none } : TransactionCollection).transactions.length = 1 :=
  c3_collection_length_roundtrip.1 1
    { count := some 1, patentFileWrapperDataBag := some [{}], requestIdentifier := none }
    { count := 1, transactions := [{ application_number := "", events := [] }],
      request_identifier := none } rfl rfl rfl

/-- C8: for every correspondent tree, the mapped address has as its city the
portion of `addressLineThreeText` before the first comma when that field is
present and non-empty, and the empty string otherwise; its geographic region
is always the empty string. -/
theorem c8_correspondent_city_heuristic :
    (∀ (d : CorrespondentDict) (s : String), d.addressLineThreeText = some s → s ≠ "" →
      (Correspondent.from_dict d).address.city =
        ⟨s.toList.takeWhile (fun c => c != ',')⟩) ∧
    (∀ d : CorrespondentDict,
      d.addressLineThreeText = none ∨ d.addressLineThreeText = some "" →
      (Correspondent.from_dict d).address.city = "") ∧
    (∀ d : CorrespondentDict,
      (Correspondent.from_dict d).address.geographic_region = "") := by
  refine ⟨?_, ?_, fun d => rfl⟩
  · intro d s hs hne
    simp only [Correspondent.from_dict, Address.from_dict, hs]
    rw [if_pos (by simpa [bne_iff_ne] using hne)]
    rfl
  · intro d hd
    rcases hd with hd | hd <;> simp [Correspondent.from_dict, Address.from_dict, hd]

/-- C8 witness: the first clause applied to a concrete correspondent tree
whose third address line is `"PORTLAND, OR 97204"`. -/
theorem c8_correspondent_city_heuristic_witness :
    (Correspondent.from_dict
      { addressLineThreeText := some "PORTLAND, OR 97204" }).address.city = "PORTLAND" := by
  have h := c8_correspondent_city_heuristic.1
    { addressLineThreeText := some "PORTLAND, OR 97204" } "PORTLAND, OR 97204" rfl
    (by decide)
  rw [h]
  rfl

/-- C5: when the requested mime type matches no download option of the
document (and the save path exists and is writable, those checks coming
first), `download_document` fails with the format-unavailable `ValueError`
whose message lists exactly the available mime types, and no network request
is issued (no `DownloadRequest` is produced). -/
theorem c5_download_format_unavailable (fs : FileSystem) (document : PatentDocument)
    (save_path : String) (filename : Option String) (mime_type : String)
    (hex : fs.pathExists save_path = true) (hw : fs.pathWritable save_path = true)
    (hmt : ∀ opt ∈ document.download_options, opt.mime_type ≠ mime_type) :
    download_document fs document save_path filename mime_type =
      .error (.valueErr ("Mime type \x27" ++ mime_type ++
        "\x27 not available for this document. Available types: " ++
        String.intercalate ", "
          (document.download_options.map (fun opt => opt.mime_type)))) ∧
    ∀ req, download_document fs document save_path filename mime_type ≠ .ok req := by
  have hfind : document.download_options.find? (fun opt => opt.mime_type == mime_type)
      = none := by
    rw [List.find?_eq_none]
    intro opt hopt
    simpa [beq_iff_eq] using hmt opt hopt
  have hmain : download_document fs document save_path filename mime_type =
      .error (.valueErr ("Mime type \x27" ++ mime_type ++
        "\x27 not available for this document. Available types: " ++
        String.intercalate ", "
          (document.download_options.map (fun opt => opt.mime_type)))) := by
    simp only [download_document, hex, hw, hfind, Bool.not_true, Bool.false_eq_true,
      if_false]
  exact ⟨hmain, fun req h => by rw [hmain] at h; exact absurd h (by simp)⟩

/-- C5 witness: a document offering only `XML` queried for `PDF` on a
writable, existing save path. -/
theorem c5_download_format_unavailable_witness :
    download_document ⟨fun _ => true, fun _ => true⟩
      { application_number := "123", official_date := ⟨⟨2021, 1, 1⟩, 0, 0, 0, some 0⟩,
        document_identifier := "ID1", document_code := "C1",
        document_description := "desc", direction_category := "INCOMING",
        download_options := [{ mime_type := "XML", download_url := "u", page_count := none }] }
      "/tmp" none "PDF" =
      .error (.valueErr
        "Mime type \x27PDF\x27 not available for this document. Available types: XML") := by
  have h := (c5_download_format_unavailable ⟨fun _ => true, fun _ => true⟩
    { application_number := "123", official_date := ⟨⟨2021, 1, 1⟩, 0, 0, 0, some 0⟩,
      document_identifier := "ID1", document_code := "C1",
      document_description := "desc", direction_category := "INCOMING",
      download_options := [{ mime_type := "XML", download_url := "u", page_count := none }] }
    "/tmp" none "PDF" rfl rfl (by decide)).1
  rw [h]
  rfl

/-- C1: for every HTTP status other than 200 and every response body, both
clients classify the exchange as a structured `USPTOError` whose numeric code
is the body key `code` when present, else the status; whose error value is
the body key `error` when present, else the per-status table
(400/403/404/500) and `"Unknown Error"` otherwise; whose detail text is read
from `errorDetails`, else `errorDetailed` (first match wins); and whose
request identifier is the body key `requestIdentifier`.  An unparsable body
(`body = none`) is treated as the empty mapping and never raises; status 404
with an unparsable body yields code 404, error `"Not Found"`, no detail and
no correlation id. -/
theorem c1_error_classification (status : Nat) (body : Option JsonDict)
    (hs : status ≠ 200) :
    ∃ (e2 : V2.USPTOError) (e1 : V1.USPTOError),
      V2.handle_response status body (fun d => d) = .error e2 ∧
      V1.endpoint_result status body (fun d => d) = .inr e1 ∧
      (∀ v, dictGet (body.getD []) "code" = some v → e2.code = v) ∧
      (dictGet (body.getD []) "code" = none → e2.code = .num status) ∧
      (∀ v, dictGet (body.getD []) "error" = some v → e2.error = v) ∧
      (dictGet (body.getD []) "error" = none →
        e2.error = .str (if status = 400 then "Bad Request"
          else if status = 403 then "Forbidden"
          else if status = 404 then "Not Found"
          else if status = 500 then "Internal Server Error"
          else "Unknown Error")) ∧
      (∀ s, dictGet (body.getD []) "errorDetails" = some (.str s) → s ≠ "" →
        e2.error_details = some (.str s)) ∧
      (dictGet (body.getD []) "errorDetails" = none →
        e2.error_details = dictGet (body.getD []) "errorDetailed") ∧
      e2.request_identifier = dictGet (body.getD []) "requestIdentifier" ∧
      (e1.code = e2.code ∧ e1.error = e2.error ∧
        e1.error_details = e2.error_details ∧
        e1.request_identifier = e2.request_identifier) ∧
      (status = 404 → body = none →
        e2 = { code := .num 404, error := .str "Not Found",
               error_details := none, request_identifier := none }) := by
  refine ⟨V2.USPTOError.from_dict (body.getD []) status,
          V1.USPTOError.from_dict (body.getD []) status, ?_, ?_, ?_, ?_, ?_, ?_, ?_, ?_,
          rfl, ⟨rfl, rfl, rfl, rfl⟩, ?_⟩
  · simp only [V2.handle_response]
    rw [if_neg (by simpa using hs)]
  · simp only [V1.endpoint_result]
    rw [if_neg (by simpa using hs)]
  · intro v hv
    simp only [V2.USPTOError.from_dict, hv, Option.getD_some]
  · intro hv
    simp only [V2.USPTOError.from_dict, hv, Option.getD_none]
  · intro v hv
    simp only [V2.USPTOError.from_dict, hv, Option.getD_some]
  · intro hv
    simp only [V2.USPTOError.from_dict, hv, Option.getD_none, V2.default_messages]
    rcases Nat.decEq status 400 with h4 | h4 <;>
      rcases Nat.decEq status 403 with h3 | h3 <;>
        rcases Nat.decEq status 404 with h44 | h44 <;>
          rcases Nat.decEq status 500 with h5 | h5 <;>
            simp_all
  · intro s hv hne
    simp only [V2.USPTOError.from_dict, hv, pyOr]
    rw [if_pos (by simpa [Json.truthy, bne_iff_ne] using hne)]
  · intro hv
    simp only [V2.USPTOError.from_dict, hv, pyOr]
  · intro h404 hbody
    subst h404
    subst hbody
    rfl

/-- C1 witness: status 404 with an unparsable body (the JSON decode failure
is treated as the empty mapping) classifies as the structured error with
code 404, error `"Not Found"`, no detail and no correlation id. -/
theorem c1_error_classification_witness :
    V2.handle_response 404 none (fun d => d) =
      .error { code := .num 404, error := .str "Not Found",
               error_details := none, request_identifier := none } := by
  obtain ⟨e2, e1, h1, _, _, _, _, _, _, _, _, _, h404⟩ :=
    c1_error_classification 404 none (by decide)
  rw [h1, h404 rfl rfl]

/-- C2 counterexample: the claim says every listed per-record mapper
substitutes documented defaults for absent keys (empty string for text) and
never raises.  It is false twice over: `PatentDocument.from_dict` and
`DownloadOption.from_dict` read their scalar keys with `data[...]`, so on the
empty tree both raise `KeyError` (embedded as `none`) instead of producing a
defaulted record; and `Address.from_dict` on the empty tree carries `None`
(not the claimed empty string) in its `Optional`-declared text field
`line2`. -/
theorem c2_counterexample :
    PatentDocument.from_dict {} = none ∧ DownloadOption.from_dict {} = none ∧
    (Address.from_dict {}).line2 = none ∧ (Address.from_dict {}).line2 ≠ some "" :=
  ⟨rfl, rfl, rfl, by decide⟩

/-- C2 (amended): the default-substitution contract holds for
`TransactionEvent`, `ForeignPriority`, `Address` and `Assignment` (absent
text keys yield `""` — or `None` for the `Optional`-declared fields `line2`,
`line3`, `postal_code` and `page_count` — absent dates yield the sentinel
1900-01-01, absent integers yield 0, absent bags yield the empty sequence,
and these mappers never raise for missing keys); `PatentDocument.from_dict`
and `DownloadOption.from_dict` instead treat their scalar keys as required
and raise `KeyError` when one is absent — only their `downloadOptionBag` and
`pageTotalQuantity` keys are defaulted. -/
theorem c2_amended_missing_key_defaults :
    (∀ d : TransactionEventDict, d.eventDate = none →
      ∃ r, TransactionEvent.from_dict d = some r ∧
        r.event_date = ⟨1900, 1, 1⟩ ∧
        (d.eventCode = none → r.event_code = "") ∧
        (d.eventDescriptionText = none → r.event_description = "")) ∧
    (∀ d : ForeignPriorityDict, d.filingDate = none →
      ∃ r, ForeignPriority.from_dict d = some r ∧
        r.filing_date = ⟨1900, 1, 1⟩ ∧
        (d.ipOfficeName = none → r.office_name = "") ∧
        (d.applicationNumberText = none → r.application_number = "")) ∧
    (∀ d : AddressDict,
      (d.addressLineOneText = none → (Address.from_dict d).line1 = "") ∧
      (d.cityName = none → (Address.from_dict d).city = "") ∧
      (d.geographicRegionCode = none → (Address.from_dict d).geographic_region = "") ∧
      (d.addressLineTwoText = none → (Address.from_dict d).line2 = none) ∧
      (d.addressLineThreeText = none → (Address.from_dict d).line3 = none) ∧
      (d.postalCode = none → (Address.from_dict d).postal_code = none)) ∧
    (∀ d : AssignmentDict, d.assignmentReceivedDate = none →
      d.assignmentRecordedDate = none → d.assignmentMailedDate = none →
      d.assignorBag = none →
      ∃ r, Assignment.from_dict d = some r ∧
        r.received_date = ⟨1900, 1, 1⟩ ∧ r.recorded_date = ⟨1900, 1, 1⟩ ∧
        r.mailed_date = ⟨1900, 1, 1⟩ ∧ r.assignors = [] ∧
        (d.reelNumber = none → r.reel_number = 0) ∧
        (d.frameNumber = none → r.frame_number = 0) ∧
        (d.pageNumber = none → r.page_number = 0) ∧
        (d.reelNumber_frameNumber = none → r.reel_frame = "") ∧
        (d.conveyanceText = none → r.conveyance_text = "") ∧
        (d.assigneeBag = none → r.assignees = []) ∧
        (d.correspondenceAddressBag = none → r.correspondents = [])) ∧
    (∀ d : PatentDocumentDict,
      (d.applicationNumberText = none → PatentDocument.from_dict d = none) ∧
      (∀ r, PatentDocument.from_dict d = some r → d.downloadOptionBag = none →
        r.download_options = [])) ∧
    (∀ d : DownloadOptionDict,
      (d.mimeTypeIdentifier = none → DownloadOption.from_dict d = none) ∧
      (d.downloadUrl = none → DownloadOption.from_dict d = none) ∧
      (∀ r, DownloadOption.from_dict d = some r → d.pageTotalQuantity = none →
        r.page_count = none)) := by
  refine ⟨?_, ?_, ?_, ?_, ?_, ?_⟩
  · intro d hd
    refine ⟨⟨d.eventCode.getD "", d.eventDescriptionText.getD "", ⟨1900, 1, 1⟩⟩,
      ?_, rfl, fun h => by simp [h], fun h => by simp [h]⟩
    simp only [TransactionEvent.from_dict, hd, Option.getD_none]
    rfl
  · intro d hd
    refine ⟨⟨d.ipOfficeName.getD "", ⟨1900, 1, 1⟩, d.applicationNumberText.getD ""⟩,
      ?_, rfl, fun h => by simp [h], fun h => by simp [h]⟩
    simp only [ForeignPriority.from_dict, hd, Option.getD_none]
    rfl
  · intro d
    exact ⟨fun h => by simp [Address.from_dict, h],
      fun h => by simp [Address.from_dict, h],
      fun h => by simp [Address.from_dict, h],
      fun h => by simp [Address.from_dict, h],
      fun h => by simp [Address.from_dict, h],
      fun h => by simp [Address.from_dict, h]⟩
  · intro d h1 h2 h3 h4
    refine ⟨{ received_date := ⟨1900, 1, 1⟩, recorded_date := ⟨1900, 1, 1⟩,
              mailed_date := ⟨1900, 1, 1⟩,
              reel_number := d.reelNumber.getD 0,
              frame_number := d.frameNumber.getD 0,
              page_number := d.pageNumber.getD 0,
              reel_frame := d.reelNumber_frameNumber.getD "",
              conveyance_text := d.conveyanceText.getD "",
              assignors := [],
              assignees := (d.assigneeBag.getD []).map Assignee.from_dict,
              correspondents :=
                (d.correspondenceAddressBag.getD []).map Correspondent.from_dict },
      ?_, rfl, rfl, rfl, rfl,
      fun h => by simp [h], fun h => by simp [h], fun h => by simp [h],
      fun h => by simp [h], fun h => by simp [h],
      fun h => by simp [h], fun h => by simp [h]⟩
    simp only [Assignment.from_dict, h1, h2, h3, h4, Option.getD_none]
    rfl
  · intro d
    constructor
    · intro h
      simp only [PatentDocument.from_dict, h]
    · intro r hr hb
      simp only [PatentDocument.from_dict, hb, Option.getD_none, optTraverse] at hr
      split at hr
      · split at hr
        · simp only [Option.some.injEq] at hr
          subst hr
          simp_all
        · exact absurd hr (by simp)
      · exact absurd hr (by simp)
  · intro d
    refine ⟨fun h => by simp [DownloadOption.from_dict, h], ?_, ?_⟩
    · intro h
      simp only [DownloadOption.from_dict, h]
      cases d.mimeTypeIdentifier <;> rfl
    · intro r hr hp
      simp only [DownloadOption.from_dict] at hr
      split at hr
      · simp only [Option.some.injEq] at hr
        subst hr
        simpa using hp
      · exact absurd hr (by simp)

/-- C2 witness: the transaction-event clause applied to the empty tree. -/
theorem c2_amended_missing_key_defaults_witness :
    ∃ r, TransactionEvent.from_dict {} = some r ∧
      r.event_code = "" ∧ r.event_date = ⟨1900, 1, 1⟩ := by
  obtain ⟨r, h1, h2, h3, _⟩ := c2_amended_missing_key_defaults.1 {} rfl
  exact ⟨r, h1, h3 rfl, h2⟩

theorem renderDateChars_length (d : Date) : (renderDateChars d).length = 10 := rfl

theorem dateFromChars_render {y m d : Nat} (hy1 : 1 ≤ y) (hy : y ≤ 9999)
    (hm1 : 1 ≤ m) (hm : m ≤ 12) (hd1 : 1 ≤ d) (hd : d ≤ daysInMonth y m) :
    dateFromChars (renderDateChars ⟨y, m, d⟩) = some ⟨y, m, d⟩ := by
  have hdim : daysInMonth y m ≤ 31 := by
    unfold daysInMonth
    split_ifs <;> omega
  have b1 : y / 1000 < 10 := by omega
  have b2 : y / 100 % 10 < 10 := by omega
  have b3 : y / 10 % 10 < 10 := by omega
  have b4 : y % 10 < 10 := by omega
  have b5 : m / 10 < 10 := by omega
  have b6 : m % 10 < 10 := by omega
  have b7 : d / 10 < 10 := by omega
  have b8 : d % 10 < 10 := by omega
  simp only [renderDateChars, pad4, pad2, List.cons_append, List.nil_append]
  simp only [dateFromChars, isDigit_digitToChar b1, isDigit_digitToChar b2,
    isDigit_digitToChar b3, isDigit_digitToChar b4, isDigit_digitToChar b5,
    isDigit_digitToChar b6, isDigit_digitToChar b7, isDigit_digitToChar b8,
    Bool.and_self, if_true, digitVal_digitToChar b1, digitVal_digitToChar b2,
    digitVal_digitToChar b3, digitVal_digitToChar b4, digitVal_digitToChar b5,
    digitVal_digitToChar b6, digitVal_digitToChar b7, digitVal_digitToChar b8]
  have ey : ((y / 1000 * 10 + y / 100 % 10) * 10 + y / 10 % 10) * 10 + y % 10 = y := by
    omega
  have em : m / 10 * 10 + m % 10 = m := by omega
  have ed : d / 10 * 10 + d % 10 = d := by omega
  rw [ey, em, ed]
  simp [hy1, hm1, hm, hd1, hd]

theorem parseHMS_render {hh mi ss : Nat} (hhh : hh ≤ 23) (hmi : mi ≤ 59) (hss : ss ≤ 59) :
    parseHMS (pad2 hh ++ ':' :: pad2 mi ++ ':' :: pad2 ss) = some (hh, mi, ss) := by
  have b1 : hh / 10 < 10 := by omega
  have b2 : hh % 10 < 10 := by omega
  have b3 : mi / 10 < 10 := by omega
  have b4 : mi % 10 < 10 := by omega
  have b5 : ss / 10 < 10 := by omega
  have b6 : ss % 10 < 10 := by omega
  simp only [pad2, List.cons_append, List.nil_append]
  simp only [parseHMS, isDigit_digitToChar b1, isDigit_digitToChar b2,
    isDigit_digitToChar b3, isDigit_digitToChar b4, isDigit_digitToChar b5,
    isDigit_digitToChar b6, Bool.and_self, if_true, digitVal_digitToChar b1,
    digitVal_digitToChar b2, digitVal_digitToChar b3, digitVal_digitToChar b4,
    digitVal_digitToChar b5, digitVal_digitToChar b6]
  have e1 : hh / 10 * 10 + hh % 10 = hh := by omega
  have e2 : mi / 10 * 10 + mi % 10 = mi := by omega
  have e3 : ss / 10 * 10 + ss % 10 = ss := by omega
  rw [e1, e2, e3]
  simp [hhh, hmi, hss]

theorem datetime_render {y m d hh mi ss : Nat} (hy1 : 1 ≤ y) (hy : y ≤ 9999)
    (hm1 : 1 ≤ m) (hm : m ≤ 12) (hd1 : 1 ≤ d) (hd : d ≤ daysInMonth y m)
    (hhh : hh ≤ 23) (hmi : mi ≤ 59) (hss : ss ≤ 59) :
    datetime_fromisoformat ⟨renderTimestampChars ⟨y, m, d⟩ hh mi ss ++ "+00:00".toList⟩ =
      some ⟨⟨y, m, d⟩, hh, mi, ss, some 0⟩ := by
  have bh1 : hh / 10 < 10 := by omega
  have bh2 : hh % 10 < 10 := by omega
  have bm1 : mi / 10 < 10 := by omega
  have bm2 : mi % 10 < 10 := by omega
  have bs1 : ss / 10 < 10 := by omega
  have bs2 : ss % 10 < 10 := by omega
  have hts : (String.mk (renderTimestampChars ⟨y, m, d⟩ hh mi ss ++ "+00:00".toList)).toList
      = renderTimestampChars ⟨y, m, d⟩ hh mi ss ++ "+00:00".toList := rfl
  have htake : (renderTimestampChars ⟨y, m, d⟩ hh mi ss ++ "+00:00".toList).take 10
      = renderDateChars ⟨y, m, d⟩ := by
    simp only [renderTimestampChars, renderDateChars, pad4, pad2, List.cons_append,
      List.nil_append, List.append_assoc]
    rfl
  have hdrop : (renderTimestampChars ⟨y, m, d⟩ hh mi ss ++ "+00:00".toList).drop 11
      = digitToChar (hh / 10) :: digitToChar (hh % 10) :: ':' ::
        digitToChar (mi / 10) :: digitToChar (mi % 10) :: ':' ::
        digitToChar (ss / 10) :: digitToChar (ss % 10) ::
        '+' :: '0' :: '0' :: ':' :: '0' :: '0' :: [] := by
    simp only [renderTimestampChars, renderDateChars, pad4, pad2, List.cons_append,
      List.nil_append, List.append_assoc]
    rfl
  have nh1m : digitToChar (hh / 10) ≠ '-' := digitToChar_ne bh1 (by decide)
  have nh2m : digitToChar (hh % 10) ≠ '-' := digitToChar_ne bh2 (by decide)
  have nm1m : digitToChar (mi / 10) ≠ '-' := digitToChar_ne bm1 (by decide)
  have nm2m : digitToChar (mi % 10) ≠ '-' := digitToChar_ne bm2 (by decide)
  have ns1m : digitToChar (ss / 10) ≠ '-' := digitToChar_ne bs1 (by decide)
  have ns2m : digitToChar (ss % 10) ≠ '-' := digitToChar_ne bs2 (by decide)
  have nh1p : digitToChar (hh / 10) ≠ '+' := digitToChar_ne bh1 (by decide)
  have nh2p : digitToChar (hh % 10) ≠ '+' := digitToChar_ne bh2 (by decide)
  have nm1p : digitToChar (mi / 10) ≠ '+' := digitToChar_ne bm1 (by decide)
  have nm2p : digitToChar (mi % 10) ≠ '+' := digitToChar_ne bm2 (by decide)
  have ns1p : digitToChar (ss / 10) ≠ '+' := digitToChar_ne bs1 (by decide)
  have ns2p : digitToChar (ss % 10) ≠ '+' := digitToChar_ne bs2 (by decide)
  have hminus : (digitToChar (hh / 10) :: digitToChar (hh % 10) :: ':' ::
        digitToChar (mi / 10) :: digitToChar (mi % 10) :: ':' ::
        digitToChar (ss / 10) :: digitToChar (ss % 10) ::
        '+' :: '0' :: '0' :: ':' :: '0' :: '0' :: []).findIdx?
        (fun c => c == '-') = none := by
    simp [List.findIdx?_cons, List.findIdx?_nil, nh1m, nh2m, nm1m, nm2m, ns1m, ns2m]
  have hplus : (digitToChar (hh / 10) :: digitToChar (hh % 10) :: ':' ::
        digitToChar (mi / 10) :: digitToChar (mi % 10) :: ':' ::
        digitToChar (ss / 10) :: digitToChar (ss % 10) ::
        '+' :: '0' :: '0' :: ':' :: '0' :: '0' :: []).findIdx?
        (fun c => c == '+') = some 8 := by
    simp [List.findIdx?_cons, List.findIdx?_nil, nh1p, nh2p, nm1p, nm2p, ns1p, ns2p]
  have htk8 : ((digitToChar (hh / 10) :: digitToChar (hh % 10) :: ':' ::
        digitToChar (mi / 10) :: digitToChar (mi % 10) :: ':' ::
        digitToChar (ss / 10) :: digitToChar (ss % 10) ::
        '+' :: '0' :: '0' :: ':' :: '0' :: '0' :: []).take 8)
      = pad2 hh ++ ':' :: pad2 mi ++ ':' :: pad2 ss := rfl
  have hdr8 : ((digitToChar (hh / 10) :: digitToChar (hh % 10) :: ':' ::
        digitToChar (mi / 10) :: digitToChar (mi % 10) :: ':' ::
        digitToChar (ss / 10) :: digitToChar (ss % 10) ::
        '+' :: '0' :: '0' :: ':' :: '0' :: '0' :: []).drop 8)
      = '+' :: '0' :: '0' :: ':' :: '0' :: '0' :: [] := rfl
  have hoff : parseOffset ('+' :: '0' :: '0' :: ':' :: '0' :: '0' :: []) = some 0 := rfl
  simp only [datetime_fromisoformat, hts, htake,
    dateFromChars_render hy1 hy hm1 hm hd1 hd, hdrop, hminus, hplus, htk8, hdr8,
    parseHMS_render hhh hmi hss, hoff]

theorem replaceChars_append (c : Char) (r l1 l2 : List Char) :
    replaceChars c r (l1 ++ l2) = replaceChars c r l1 ++ replaceChars c r l2 := by
  induction l1 with
  | nil => rfl
  | cons x xs ih => simp [replaceChars, ih, List.append_assoc]

theorem replaceChars_no_hit (c : Char) (r : List Char) :
    ∀ l : List Char, (∀ x ∈ l, x ≠ c) → replaceChars c r l = l := by
  intro l
  induction l with
  | nil => intro _; rfl
  | cons x xs ih =>
    intro h
    have hx : x ≠ c := h x (List.mem_cons_self x xs)
    simp [replaceChars, hx, ih (fun z hz => h z (List.mem_cons_of_mem x hz))]

theorem pyReplaceChar_append_Z (s : String) (h : ∀ x ∈ s.toList, x ≠ 'Z') :
    pyReplaceChar (s ++ "Z") 'Z' "+00:00" = s ++ "+00:00" := by
  show String.mk (replaceChars 'Z' "+00:00".toList (s ++ "Z").toList) = s ++ "+00:00"
  have hdata : (s ++ "Z").toList = s.toList ++ ['Z'] := by
    simp [String.toList, String.data_append]
  rw [hdata, replaceChars_append, replaceChars_no_hit _ _ _ h]
  have hz : replaceChars 'Z' "+00:00".toList ['Z'] = "+00:00".toList := by
    simp [replaceChars]
  rw [hz]
  rfl

theorem renderTimestampChars_no_Z {y m d hh mi ss : Nat} (hy : y ≤ 9999) (hm : m ≤ 12)
    (hd31 : d ≤ 31) (hhh : hh ≤ 23) (hmi : mi ≤ 59) (hss : ss ≤ 59) :
    ∀ x ∈ renderTimestampChars ⟨y, m, d⟩ hh mi ss, x ≠ 'Z' := by
  intro x hx
  simp only [renderTimestampChars, renderDateChars, pad4, pad2, List.cons_append,
    List.nil_append, List.append_assoc, List.mem_cons, List.not_mem_nil, or_false] at hx
  rcases hx with rfl | rfl | rfl | rfl | rfl | rfl | rfl | rfl | rfl | rfl | rfl | rfl |
    rfl | rfl | rfl | rfl | rfl | rfl | rfl
  all_goals first
  | decide
  | exact digitToChar_ne (by omega) (by decide)

/-- C6: every date-field string of the form `YYYY-MM-DD` is parsed by the
mappers to the corresponding calendar date through the strict ISO-8601 date
grammar; and every timestamp of the form `YYYY-MM-DDTHH:MM:SS` carrying a
trailing `Z` marker is normalized by `PatentDocument.from_dict` to an
explicit `+00:00` offset before parsing, yielding an instant whose UTC
offset is `+00:00` (offset 0); including the spec examples `"2024-05-01"` and
`"2021-01-01T00:00:00Z"`. -/
theorem c6_iso_date_parsing :
    (∀ (y m d : Nat) (ec desc : String), 1 ≤ y → y ≤ 9999 → 1 ≤ m → m ≤ 12 → 1 ≤ d →
      d ≤ daysInMonth y m →
      TransactionEvent.from_dict
        { eventCode := some ec, eventDescriptionText := some desc,
          eventDate := some (renderDate ⟨y, m, d⟩) } = some ⟨ec, desc, ⟨y, m, d⟩⟩) ∧
    (∀ s : String, (∀ x ∈ s.toList, x ≠ 'Z') →
      pyReplaceChar (s ++ "Z") 'Z' "+00:00" = s ++ "+00:00") ∧
    (∀ (y m d hh mi ss : Nat) (an di dc dd dcat : String),
      1 ≤ y → y ≤ 9999 → 1 ≤ m → m ≤ 12 → 1 ≤ d → d ≤ daysInMonth y m →
      hh ≤ 23 → mi ≤ 59 → ss ≤ 59 →
      PatentDocument.from_dict
        { applicationNumberText := some an,
          officialDate := some (renderTimestamp ⟨y, m, d⟩ hh mi ss ++ "Z"),
          documentIdentifier := some di, documentCode := some dc,
          documentCodeDescriptionText := some dd, directionCategory := some dcat,
          downloadOptionBag := none } =
        some { application_number := an,
               official_date := ⟨⟨y, m, d⟩, hh, mi, ss, some 0⟩,
               document_identifier := di, document_code := dc,
               document_description := dd, direction_category := dcat,
               download_options := [] }) ∧
    date_fromisoformat "2024-05-01" = some ⟨2024, 5, 1⟩ ∧
    datetime_fromisoformat (pyReplaceChar "2021-01-01T00:00:00Z" 'Z' "+00:00") =
      some ⟨⟨2021, 1, 1⟩, 0, 0, 0, some 0⟩ := by
  refine ⟨?_, pyReplaceChar_append_Z, ?_, by decide, by decide⟩
  · intro y m d ec desc hy1 hy hm1 hm hd1 hd
    simp only [TransactionEvent.from_dict, Option.getD_some]
    rw [show date_fromisoformat (renderDate ⟨y, m, d⟩)
        = dateFromChars (renderDateChars ⟨y, m, d⟩) from rfl,
      dateFromChars_render hy1 hy hm1 hm hd1 hd]
    rfl
  · intro y m d hh mi ss an di dc dd dcat hy1 hy hm1 hm hd1 hd hhh hmi hss
    have hdim : daysInMonth y m ≤ 31 := by
      unfold daysInMonth
      split_ifs <;> omega
    have hnoZ : ∀ x ∈ (renderTimestamp ⟨y, m, d⟩ hh mi ss).toList, x ≠ 'Z' := by
      have : (renderTimestamp ⟨y, m, d⟩ hh mi ss).toList
          = renderTimestampChars ⟨y, m, d⟩ hh mi ss := rfl
      rw [this]
      exact renderTimestampChars_no_Z hy hm (by omega) hhh hmi hss
    simp only [PatentDocument.from_dict]
    rw [pyReplaceChar_append_Z _ hnoZ]
    have hstr : renderTimestamp ⟨y, m, d⟩ hh mi ss ++ "+00:00"
        = ⟨renderTimestampChars ⟨y, m, d⟩ hh mi ss ++ "+00:00".toList⟩ := rfl
    rw [hstr, datetime_render hy1 hy hm1 hm hd1 hd hhh hmi hss]
    rfl

/-- C6 witness: the date clause at `"2024-05-01"` and the timestamp clause at
`"2021-01-01T00:00:00Z"`. -/
theorem c6_iso_date_parsing_witness :
    TransactionEvent.from_dict
      { eventCode := some "A", eventDescriptionText := some "B",
        eventDate := some (renderDate ⟨2024, 5, 1⟩) } = some ⟨"A", "B", ⟨2024, 5, 1⟩⟩ ∧
    PatentDocument.from_dict
      { applicationNumberText := some "123",
        officialDate := some (renderTimestamp ⟨2021, 1, 1⟩ 0 0 0 ++ "Z"),
        documentIdentifier := some "ID", documentCode := some "C",
        documentCodeDescriptionText := some "D", directionCategory := some "IN",
        downloadOptionBag := none } =
      some { application_number := "123",
             official_date := ⟨⟨2021, 1, 1⟩, 0, 0, 0, some 0⟩,
             document_identifier := "ID", document_code := "C",
             document_description := "D", direction_category := "IN",
             download_options := [] } :=
  ⟨c6_iso_date_parsing.1 2024 5 1 "A" "B" (by decide) (by decide) (by decide)
      (by decide) (by decide) (by decide),
   c6_iso_date_parsing.2.2.1 2021 1 1 0 0 0 "123" "ID" "C" "D" "IN" (by decide)
      (by decide) (by decide) (by decide) (by decide) (by decide) (by decide)
      (by decide) (by decide)⟩
